import Mathlib

/-!
Verification of the `@ouroboros/body` client library (src/src/index.ts).

The development shallowly embeds the `Body` class: JavaScript values are
modelled by `JSVal`, callback slots hold `JSArg` (a function identified by a
numeric id, or an arbitrary non-function value), and the single dispatch
routine `Body.request` is translated stage by stage from the promise chain in
`Body.request` (index.ts lines 136-290).  Hook invocations are recorded in an
event trace; hook side effects are external to the class and are not modelled.
-/

/-- A JavaScript/JSON value (index.ts works with untyped `any` data). -/
inductive JSVal where
  | undefined : JSVal
  | null : JSVal
  | bool (b : Bool) : JSVal
  | num (n : Int) : JSVal
  | str (s : String) : JSVal
  | arr (xs : List JSVal) : JSVal
  | obj (fields : List (String × JSVal)) : JSVal
deriving Repr

/-- JavaScript truthiness of a value. -/
def jsTruthy : JSVal → Bool
  | JSVal.undefined => false
  | JSVal.null => false
  | JSVal.bool b => b
  | JSVal.num n => n != 0
  | JSVal.str s => s != ""
  | JSVal.arr _ => true
  | JSVal.obj _ => true

/-- Is the value the JS literal `null`?  (`data !== null` tests.) -/
def isNullVal : JSVal → Bool
  | JSVal.null => true
  | _ => false

/-- Is the value exactly the boolean `false`?  (the `=== false` test.) -/
def isFalseVal : JSVal → Bool
  | JSVal.bool b => b = false
  | _ => false

/-- Property lookup on an object's field list (JS object keys are unique, so
the first match is the value of the key). -/
def lookupField (fs : List (String × JSVal)) (k : String) : Option JSVal :=
  match fs.find? (fun p => p.1 == k) with
  | some p => some p.2
  | none => none

/-- Lower-case hex digit, used by JSON string escapes. -/
def hexLower (n : Nat) : Char :=
  if n < 10 then Char.ofNat (48 + n) else Char.ofNat (87 + n)

/-- Upper-case hex digit, used by percent-encoding. -/
def hexUpper (n : Nat) : Char :=
  if n < 10 then Char.ofNat (48 + n) else Char.ofNat (55 + n)

/-- How `JSON.stringify` escapes one character inside a string literal. -/
def jsonEscapeChar (c : Char) : String :=
  if c = Char.ofNat 34 then "\\\""
  else if c = Char.ofNat 92 then "\\\\"
  else if c = Char.ofNat 8 then "\\b"
  else if c = Char.ofNat 9 then "\\t"
  else if c = Char.ofNat 10 then "\\n"
  else if c = Char.ofNat 12 then "\\f"
  else if c = Char.ofNat 13 then "\\r"
  else if c.toNat < 32 then
    "\\u00" ++ (hexLower (c.toNat / 16)).toString ++ (hexLower (c.toNat % 16)).toString
  else c.toString

/-- `JSON.stringify` of a string: quoted and escaped. -/
def jsonQuote (s : String) : String :=
  "\"" ++ s.data.foldl (fun acc c => acc ++ jsonEscapeChar c) "" ++ "\""

/-- Comma-separator join, as used between array elements / object members. -/
def commaJoin : List String → String
  | [] => ""
  | [s] => s
  | s :: rest => s ++ "," ++ commaJoin rest

mutual

/-- `JSON.stringify`: `none` models the `undefined` result (for an
`undefined` top-level value); inside objects such members are dropped, inside
arrays they render as `null`. -/
def jsonStringify : JSVal → Option String
  | JSVal.undefined => none
  | JSVal.null => some "null"
  | JSVal.bool b => some (if b then "true" else "false")
  | JSVal.num n => some (Int.repr n)
  | JSVal.str s => some (jsonQuote s)
  | JSVal.arr xs => some ("[" ++ commaJoin (jsonStringifyArr xs) ++ "]")
  | JSVal.obj fs => some ("\x7b" ++ commaJoin (jsonStringifyObj fs) ++ "\x7d")

/-- Array elements of `JSON.stringify`. -/
def jsonStringifyArr : List JSVal → List String
  | [] => []
  | x :: xs => (jsonStringify x).getD "null" :: jsonStringifyArr xs

/-- Object members of `JSON.stringify` (members whose value stringifies to
`undefined` are omitted). -/
def jsonStringifyObj : List (String × JSVal) → List String
  | [] => []
  | (k, x) :: ps =>
    match jsonStringify x with
    | some v => (jsonQuote k ++ ":" ++ v) :: jsonStringifyObj ps
    | none => jsonStringifyObj ps

end

/-- Characters `encodeURIComponent` leaves unescaped. -/
def isUnreservedURI (c : Char) : Bool :=
  c.isAlpha || c.isDigit || c = Char.ofNat 45 || c = Char.ofNat 95 ||
  c = Char.ofNat 46 || c = Char.ofNat 33 || c = Char.ofNat 126 ||
  c = Char.ofNat 42 || c = Char.ofNat 39 || c = Char.ofNat 40 || c = Char.ofNat 41

/-- UTF-8 bytes of a unicode scalar value. -/
def utf8Bytes (n : Nat) : List Nat :=
  if n < 128 then [n]
  else if n < 2048 then [192 + n / 64, 128 + n % 64]
  else if n < 65536 then [224 + n / 4096, 128 + (n / 64) % 64, 128 + n % 64]
  else [240 + n / 262144, 128 + (n / 4096) % 64, 128 + (n / 64) % 64, 128 + n % 64]

/-- One percent-escaped byte, upper-case hex. -/
def pctByte (b : Nat) : String :=
  "%" ++ (hexUpper (b / 16)).toString ++ (hexUpper (b % 16)).toString

/-- JavaScript `encodeURIComponent`. -/
def encodeURIComponent (s : String) : String :=
  s.data.foldl
    (fun acc c =>
      if isUnreservedURI c then acc ++ c.toString
      else acc ++ (utf8Bytes c.toNat).foldl (fun a b => a ++ pctByte b) "")
    ""

/-- A value handed to a callback slot: a function (identified by a numeric id,
its behaviour supplied externally) or any non-function JavaScript value (the
batch `on` performs no type check, so slots can end up holding these). -/
inductive JSArg where
  | func (id : Nat) : JSArg
  | value (v : JSVal) : JSArg
deriving Repr

/-- `typeof x === 'function'`. -/
def isFunc : JSArg → Bool
  | JSArg.func _ => true
  | JSArg.value _ => false

/-- What happens when the source guards a slot by truthiness and then calls
it: a falsy slot (absent, or a falsy non-function) is skipped, a function is
called, and a truthy non-function raises a `TypeError`. -/
inductive SlotAction where
  | skip : SlotAction
  | call (id : Nat) : SlotAction
  | typeError : SlotAction
deriving Repr, DecidableEq

/-- Classify a callback slot as above. -/
def slotCall : Option JSArg → SlotAction
  | none => SlotAction.skip
  | some (JSArg.func i) => SlotAction.call i
  | some (JSArg.value v) => if jsTruthy v then SlotAction.typeError else SlotAction.skip

/-- Message of the `TypeError` raised by calling a non-function `n`. -/
def tyErrMsg (n : String) : String :=
  "TypeError: " ++ n ++ " is not a function"

/-- The mutable fields of the `Body` class (index.ts lines 74-99): the request
domain, the six callback slots and the session token. -/
structure BodyState where
  _domain : String := "localhost"
  error : Option JSArg := none
  errorCode : Option JSArg := none
  noSession : Option JSArg := none
  requested : Option JSArg := none
  requesting : Option JSArg := none
  token : Option String := none
  warning : Option JSArg := none
deriving Repr

namespace Body

/-- `Body.session(token)`, setting branch (index.ts lines 508-511): replaces
the stored token; passing `null` clears it. -/
def session (st : BodyState) (token : Option String) : BodyState :=
  { st with token := token }

/-- `Body.session()`, getting branch (index.ts lines 504-506). -/
def sessionGet (st : BodyState) : Option String :=
  st.token

/-- `Body.onError` (index.ts lines 365-374): rejects non-functions with a
synchronous `Error`, otherwise stores the callback. -/
def onError (st : BodyState) (callback : JSArg) : Except String BodyState :=
  if isFunc callback = false then Except.error "onError() called with an invalid callback"
  else Except.ok { st with error := some callback }

/-- `Body.onErrorCode` (index.ts lines 385-394). -/
def onErrorCode (st : BodyState) (callback : JSArg) : Except String BodyState :=
  if isFunc callback = false then Except.error "onErrorCode() called with an invalid callback"
  else Except.ok { st with errorCode := some callback }

/-- `Body.onNoSession` (index.ts lines 405-414). -/
def onNoSession (st : BodyState) (callback : JSArg) : Except String BodyState :=
  if isFunc callback = false then Except.error "onNoSession() called with an invalid callback"
  else Except.ok { st with noSession := some callback }

/-- `Body.onRequested` (index.ts lines 425-434). -/
def onRequested (st : BodyState) (callback : JSArg) : Except String BodyState :=
  if isFunc callback = false then Except.error "onRequested() called with an invalid callback"
  else Except.ok { st with requested := some callback }

/-- `Body.onRequesting` (index.ts lines 445-454). -/
def onRequesting (st : BodyState) (callback : JSArg) : Except String BodyState :=
  if isFunc callback = false then Except.error "onRequesting() called with an invalid callback"
  else Except.ok { st with requesting := some callback }

/-- `Body.onWarning` (index.ts lines 465-474). -/
def onWarning (st : BodyState) (callback : JSArg) : Except String BodyState :=
  if isFunc callback = false then Except.error "onWarning() called with an invalid callback"
  else Except.ok { st with warning := some callback }

/-- `Body.on` (index.ts lines 331-354): iterates the keys of the supplied
object (modelled as its key/value list; JS object keys are unique), assigns
each of the six known slots from the paired value with no type check, and
ignores unknown keys.  (Named `on` in the source; `on` is not usable as a
Lean identifier here.)  `onStep` is one iteration of the `switch`
(index.ts lines 333-352): assign the slot named by the key, ignore unknown
keys. -/
def onStep (s : BodyState) (p : String × JSArg) : BodyState :=
  if p.1 = "error" then { s with error := some p.2 }
  else if p.1 = "errorCode" then { s with errorCode := some p.2 }
  else if p.1 = "noSession" then { s with noSession := some p.2 }
  else if p.1 = "requested" then { s with requested := some p.2 }
  else if p.1 = "requesting" then { s with requesting := some p.2 }
  else if p.1 = "warning" then { s with warning := some p.2 }
  else s

/-- The loop of `Body.on`: fold `onStep` over the keys. -/
def on' (st : BodyState) (callbacks : List (String × JSArg)) : BodyState :=
  callbacks.foldl onStep st

end Body

/-- The event names `Body.on` recognises. -/
def knownKinds : List String :=
  ["error", "errorCode", "noSession", "requested", "requesting", "warning"]

/-- The callback slot a kind name refers to. -/
def slotOf (k : String) (st : BodyState) : Option JSArg :=
  if k = "error" then st.error
  else if k = "errorCode" then st.errorCode
  else if k = "noSession" then st.noSession
  else if k = "requested" then st.requested
  else if k = "requesting" then st.requesting
  else if k = "warning" then st.warning
  else none

/-- The value paired with the last occurrence of key `k` (JS object
semantics: later member wins). -/
def lastVal (m : List (String × JSArg)) (k : String) : Option JSArg :=
  match m with
  | [] => none
  | p :: rest =>
    match lastVal rest k with
    | some v => some v
    | none => if p.1 = k then some p.2 else none

/-- The four dispatch actions. -/
inductive ReqAction where
  | create : ReqAction
  | delete : ReqAction
  | read : ReqAction
  | update : ReqAction
deriving Repr, DecidableEq

/-- The fixed action-to-HTTP-method table (index.ts lines 59-64). -/
def METHODS : ReqAction → String
  | ReqAction.create => "POST"
  | ReqAction.delete => "DELETE"
  | ReqAction.read => "GET"
  | ReqAction.update => "PUT"

/-- The one content type the library sends and accepts. -/
def jsonCT : String := "application/json; charset=utf-8"

/-- The outgoing `fetch` init object: method, the always-set content type
header, the optional `Authorization` header and the optional body. -/
structure FetchInit where
  method : String
  contentType : String
  authorization : Option String
  body : Option String
deriving Repr

/-- URL construction and `fetchInit` assembly from `Body.request`
(index.ts lines 143-160 and 178-193).  Returns the init and the URL.
For `read` with non-null data the JSON text (string-coerced, so `undefined`
renders as "undefined") is percent-escaped into the single query parameter
`d` and no body is set; otherwise non-null data is stringified into the body
(the `if(json)` truthiness guard drops an empty or undefined string).  A
truthy token is attached verbatim as the `Authorization` header. -/
def buildRequest (st : BodyState) (action : ReqAction) (service noun : String)
    (data : JSVal) : FetchInit × String :=
  let url0 := "https://" ++ st._domain ++ "/" ++ service ++ "/" ++ noun
  let url :=
    if isNullVal data = false ∧ action = ReqAction.read then
      url0 ++ "?d=" ++ encodeURIComponent ((jsonStringify data).getD "undefined")
    else url0
  let json : Option String :=
    if isNullVal data = false ∧ action ≠ ReqAction.read then jsonStringify data else none
  let auth : Option String :=
    match st.token with
    | some t => if t = "" then none else some t
    | none => none
  let body : Option String :=
    match json with
    | some s => if s = "" then none else some s
    | none => none
  ({ method := METHODS action, contentType := jsonCT,
     authorization := auth, body := body }, url)

/-- Observable hook events of one dispatch, in invocation order.  Each event
names the id of the called slot; `parsedBody` records that `response.json()`
was invoked. -/
inductive Event where
  | requestingHook (id : Nat) : Event
  | parsedBody : Event
  | noSessionHook (id : Nat) : Event
  | errorHook (id : Nat) (msg : String) : Event
  | errorCodeHook (id : Nat) (err : JSVal) : Event
  | warningHook (id : Nat) (w : JSVal) : Event
  | requestedHook (id : Nat) (res : Option JSVal) : Event
deriving Repr

/-- The slot id an event refers to, if any. -/
def eventId : Event → Option Nat
  | Event.requestingHook i => some i
  | Event.parsedBody => none
  | Event.noSessionHook i => some i
  | Event.errorHook i _ => some i
  | Event.errorCodeHook i _ => some i
  | Event.warningHook i _ => some i
  | Event.requestedHook i _ => some i

/-- Is the event an after-request (requested) hook invocation? -/
def isRequestedEv : Event → Bool
  | Event.requestedHook _ _ => true
  | _ => false

/-- The ids of the functions currently registered in the six slots. -/
def hookIds (st : BodyState) : List Nat :=
  [st.error, st.errorCode, st.noSession, st.requested, st.requesting,
   st.warning].filterMap
    (fun s =>
      match s with
      | some (JSArg.func i) => some i
      | _ => none)

/-- Result of `response.json()`: a parsed value, or a rejection (its reason
already in string form, as the later template interpolation renders it). -/
inductive BodyParse where
  | ok (v : JSVal) : BodyParse
  | fail (reason : String) : BodyParse
deriving Repr

/-- An HTTP response as `Body.request` observes it: status, the
`Content-Type` header (absent models a `null` header lookup) and the body. -/
structure HttpResponse where
  status : Nat
  contentType : Option String
  body : BodyParse
deriving Repr

/-- How the transport settles: the `fetch` promise rejects (reason in string
form) or yields an HTTP response. -/
inductive TransportResult where
  | netFail (reason : String) : TransportResult
  | response (r : HttpResponse) : TransportResult
deriving Repr

/-- How the caller's promise ends up: never settled, resolved via
`resolve(result.data)`, rejected via `reject(result.error)`, or rejected by
an exception thrown synchronously in the executor. -/
inductive Outcome where
  | pending : Outcome
  | resolved (v : JSVal) : Outcome
  | rejected (e : JSVal) : Outcome
  | excepted (msg : String) : Outcome
deriving Repr

/-- Everything observable about one dispatch: the promise outcome, the event
trace, and an uncaught exception escaping the internal chain (if any). -/
structure DispatchResult where
  outcome : Outcome
  trace : List Event
  uncaught : Option String
deriving Repr

namespace Body

/-- The inner `handleError` helper (index.ts lines 166-172): report through a
truthy `error` slot, else throw an `Error` carrying the message.  Returns the
events fired and the exception raised, if any. -/
def handleError (st : BodyState) (message : String) : List Event × Option String :=
  match slotCall st.error with
  | SlotAction.call i => ([Event.errorHook i message], none)
  | SlotAction.typeError => ([], some (tyErrMsg "_.error"))
  | SlotAction.skip => ([], some ("Error: " ++ message))

/-- `return response.json()` (index.ts line 215): record the parse attempt;
a parse rejection becomes the exception flowing to `.catch`. -/
def parseStep (evs : List Event) (r : HttpResponse) :
    List Event × Except String (Option JSVal) :=
  match r.body with
  | BodyParse.ok v => (evs ++ [Event.parsedBody], Except.ok (some v))
  | BodyParse.fail reason => (evs ++ [Event.parsedBody], Except.error reason)

/-- The first `.then` handler (index.ts lines 201-236).  2xx: a missing or
mismatched `Content-Type` (`!ct || ct !== jsonCT`, equivalently
`ct ≠ some jsonCT`) goes through `handleError`, after which — if nothing was
thrown — the body is parsed regardless.  401: a truthy `noSession` slot is
called and `undefined` is passed on, else an `Error` is thrown.  Any other
status goes through `handleError` and passes `undefined` on. -/
def stage1 (st : BodyState) (method url : String) (r : HttpResponse) :
    List Event × Except String (Option JSVal) :=
  if 200 ≤ r.status ∧ r.status < 300 then
    if r.contentType = some jsonCT then
      parseStep [] r
    else
      let he := handleError st (method ++ " " ++ url ++ " returned invalid Content-Type: "
          ++ ((r.contentType).getD "null"))
      match he.2 with
      | some exc => (he.1, Except.error exc)
      | none => parseStep he.1 r
  else if r.status = 401 then
    match slotCall st.noSession with
    | SlotAction.call i => ([Event.noSessionHook i], Except.ok none)
    | SlotAction.typeError => ([], Except.error (tyErrMsg "_.noSession"))
    | SlotAction.skip =>
      ([], Except.error ("Error: " ++ method ++ " " ++ url ++ " return 401 NOT AUTHORIZED"))
  else
    let he := handleError st (method ++ " " ++ url ++ " returned invalid status: "
        ++ toString r.status)
    match he.2 with
    | some exc => (he.1, Except.error exc)
    | none => (he.1, Except.ok none)

/-- The `data` step of the second `.then` (index.ts lines 270-275): a present
`data` member resolves the promise with its value, else nothing settles. -/
def dataStep (fs : List (String × JSVal)) (res : Option JSVal) (evs : List Event) :
    List Event × Option JSVal × Outcome × Option String :=
  match lookupField fs "data" with
  | some d => (evs, res, Outcome.resolved d, none)
  | none => (evs, res, Outcome.pending, none)

/-- The `warning` step of the second `.then` (index.ts lines 263-268), then
the `data` step: a present truthy `warning` member is delivered to a truthy
`warning` slot. -/
def warningStep (st : BodyState) (fs : List (String × JSVal)) (res : Option JSVal)
    (evs : List Event) : List Event × Option JSVal × Outcome × Option String :=
  match lookupField fs "warning" with
  | some w =>
    if jsTruthy w then
      match slotCall st.warning with
      | SlotAction.call i => dataStep fs res (evs ++ [Event.warningHook i w])
      | SlotAction.typeError => (evs, res, Outcome.pending, some (tyErrMsg "_.warning"))
      | SlotAction.skip => dataStep fs res evs
    else dataStep fs res evs
  | none => dataStep fs res evs

/-- The second `.then` handler (index.ts lines 238-275).  A falsy result is
ignored (`if(!result) return`).  Otherwise `res` is recorded and, for an
object result, a present truthy `error` member rejects with the error object
when the `errorCode` slot is falsy or when the called hook returns exactly
`false`; any other hook return suppresses the error and classification
continues with the warning and data steps.  (`'in'` on a truthy non-object
throws.)  Returns (events, `res`, settlement, exception to `.catch`). -/
def stage2 (st : BodyState) (ecRet : Nat → JSVal) (result : Option JSVal) :
    List Event × Option JSVal × Outcome × Option String :=
  match result with
  | none => ([], none, Outcome.pending, none)
  | some v =>
    if jsTruthy v = false then ([], none, Outcome.pending, none)
    else
      match v with
      | JSVal.obj fs =>
        match lookupField fs "error" with
        | some e =>
          if jsTruthy e then
            match slotCall st.errorCode with
            | SlotAction.skip => ([], some v, Outcome.rejected e, none)
            | SlotAction.typeError =>
              ([], some v, Outcome.pending, some (tyErrMsg "_.errorCode"))
            | SlotAction.call i =>
              if isFalseVal (ecRet i) then
                ([Event.errorCodeHook i e], some v, Outcome.rejected e, none)
              else warningStep st fs (some v) [Event.errorCodeHook i e]
          else warningStep st fs (some v) []
        | none => warningStep st fs (some v) []
      | JSVal.arr _ => ([], some v, Outcome.pending, none)
      | _ =>
        ([], some v, Outcome.pending,
         some "TypeError: Cannot use \x27in\x27 operator to search for \x27error\x27 in value")

/-- The promise chain of `Body.request` after the transport is issued:
stage1, stage2, the `.catch` (index.ts lines 277-281, wrapping the reason in
a descriptive message through `handleError`) and the `.finally` (index.ts
lines 282-288, firing a truthy `requested` slot; a truthy non-function there
raises a `TypeError` that supersedes any earlier uncaught exception).
`fetchSettle` is how the transport settlement enters the chain: a `fetch`
rejection bypasses the first `.then` handler, a response runs `stage1`. -/
def fetchSettle (st : BodyState) (method url : String) (tr : TransportResult) :
    List Event × Except String (Option JSVal) :=
  match tr with
  | TransportResult.netFail reason => ([], Except.error reason)
  | TransportResult.response r => stage1 st method url r

/-- The second `.then`, fed the first handler's settlement: a rejection skips
the handler and flows on, a fulfilment runs `stage2`. -/
def classifySettle (st : BodyState) (ecRet : Nat → JSVal)
    (s1res : Except String (Option JSVal)) :
    List Event × Option JSVal × Outcome × Option String :=
  match s1res with
  | Except.ok result => stage2 st ecRet result
  | Except.error e => ([], none, Outcome.pending, some e)

/-- The `.catch` handler (index.ts lines 277-281): any exception in the chain
is wrapped in a descriptive message and routed through `handleError`. -/
def catchStep (st : BodyState) (method url : String) (exc : Option String) :
    List Event × Option String :=
  match exc with
  | some reason =>
    handleError st (method ++ " " ++ url ++ " failed because of \"" ++ reason ++ "\"")
  | none => ([], none)

/-- The `.finally` handler (index.ts lines 282-288): fire a truthy
`requested` slot with `res`; a truthy non-function there raises a `TypeError`
that supersedes any earlier uncaught exception. -/
def finallyStep (st : BodyState) (res : Option JSVal) (prevUncaught : Option String) :
    List Event × Option String :=
  match slotCall st.requested with
  | SlotAction.call i => ([Event.requestedHook i res], prevUncaught)
  | SlotAction.typeError => ([], some (tyErrMsg "this.requested"))
  | SlotAction.skip => ([], prevUncaught)

/-- The chain composed: stage1, stage2, catch, finally. -/
def requestChain (st : BodyState) (method url : String) (tr : TransportResult)
    (ecRet : Nat → JSVal) (evs0 : List Event) : DispatchResult :=
  let s1 := fetchSettle st method url tr
  let s2 := classifySettle st ecRet s1.2
  let caught := catchStep st method url s2.2.2.2
  let fin := finallyStep st s2.2.1 caught.2
  { outcome := s2.2.2.1, trace := evs0 ++ s1.1 ++ s2.1 ++ caught.1 ++ fin.1,
    uncaught := fin.2 }

/-- `Body.request` (index.ts lines 136-290), composed from the stages above.
The executor builds the request, fires a truthy `requesting` slot (a truthy
non-function throws inside the executor, rejecting the promise before the
transport runs), then the chain
`fetch(...).then(stage1).then(stage2).catch(handleError).finally(requested)`
runs over the supplied transport settlement.  `ecRet` supplies the value the
`errorCode` hook returns when called.  The class state is returned unchanged:
no line of `request` assigns to any field. -/
def request (st : BodyState) (action : ReqAction) (service noun : String)
    (data : JSVal) (tr : TransportResult) (ecRet : Nat → JSVal) :
    DispatchResult × BodyState :=
  let built := buildRequest st action service noun data
  let url := built.2
  let method := built.1.method
  match slotCall st.requesting with
  | SlotAction.typeError =>
    ({ outcome := Outcome.excepted (tyErrMsg "this.requesting"), trace := [],
       uncaught := none }, st)
  | SlotAction.call i =>
    (requestChain st method url tr ecRet [Event.requestingHook i], st)
  | SlotAction.skip =>
    (requestChain st method url tr ecRet [], st)

end Body

/-- A `Body` state with nothing registered (the state of a fresh instance). -/
def stNone : BodyState := {}

/-- A concrete service error object, `{code: 1001, msg: "bad field"}`. -/
def errObj1 : JSVal := JSVal.obj [("code", JSVal.num 1001), ("msg", JSVal.str "bad field")]

/-- A response envelope carrying only that error. -/
def envErr1 : JSVal := JSVal.obj [("error", errObj1)]

/-- A 2xx response with the expected content type and a parsed body `v`. -/
def okJson (v : JSVal) : HttpResponse :=
  { status := 200, contentType := some jsonCT, body := BodyParse.ok v }

/-- A 2xx response with a non-JSON content type whose body still parses to
an envelope carrying `data: 42`. -/
def htmlData42 : HttpResponse :=
  { status := 200, contentType := some "text/html",
    body := BodyParse.ok (JSVal.obj [("data", JSVal.num 42)]) }

/-- A bare 401 response. -/
def resp401 : HttpResponse :=
  { status := 401, contentType := none, body := BodyParse.ok JSVal.null }

/-- An error-code hook behaviour returning exactly `false`. -/
def retFalse : Nat → JSVal := fun _ => JSVal.bool false

/-- An error-code hook behaviour returning `undefined` (a bare `return`). -/
def retUndef : Nat → JSVal := fun _ => JSVal.undefined

theorem slotCall_call_iff {s : Option JSArg} {i : Nat} :
    slotCall s = SlotAction.call i ↔ s = some (JSArg.func i) := by
  cases s with
  | none => simp [slotCall]
  | some a =>
    cases a with
    | func j => simp [slotCall]
    | value v =>
      simp only [slotCall]
      constructor
      · intro h
        split at h <;> simp_all
      · intro h
        simp at h

theorem handleError_shape {st : BodyState} {m : String} :
    ∀ e ∈ (Body.handleError st m).1,
      ∃ i, e = Event.errorHook i m ∧ st.error = some (JSArg.func i) := by
  intro e he
  unfold Body.handleError at he
  cases h : slotCall st.error with
  | skip => rw [h] at he; simp at he
  | typeError => rw [h] at he; simp at he
  | call i =>
    rw [h] at he
    simp at he
    exact ⟨i, he, slotCall_call_iff.mp h⟩

theorem parseStep_shape {evs : List Event} {r : HttpResponse} :
    ∀ e ∈ (Body.parseStep evs r).1, e ∈ evs ∨ e = Event.parsedBody := by
  intro e he
  unfold Body.parseStep at he
  cases h : r.body <;> rw [h] at he <;> simpa using he

theorem stage1_shape {st : BodyState} {method url : String} {r : HttpResponse} :
    ∀ e ∈ (Body.stage1 st method url r).1,
      (∃ i m, e = Event.errorHook i m ∧ st.error = some (JSArg.func i)) ∨
      (∃ i, e = Event.noSessionHook i ∧ st.noSession = some (JSArg.func i)) ∨
      e = Event.parsedBody := by
  intro e he
  unfold Body.stage1 at he
  by_cases hok : 200 ≤ r.status ∧ r.status < 300
  · rw [if_pos hok] at he
    by_cases hct : r.contentType = some jsonCT
    · rw [if_pos hct] at he
      rcases parseStep_shape e he with h | h
      · simp at h
      · exact Or.inr (Or.inr h)
    · rw [if_neg hct] at he
      simp only [] at he
      cases hh : (Body.handleError st (method ++ " " ++ url ++ " returned invalid Content-Type: "
          ++ ((r.contentType).getD "null"))).2 <;> rw [hh] at he
      · rcases parseStep_shape e he with h | h
        · rcases handleError_shape e h with ⟨i, h1, h2⟩
          exact Or.inl ⟨i, _, h1, h2⟩
        · exact Or.inr (Or.inr h)
      · rcases handleError_shape e he with ⟨i, h1, h2⟩
        exact Or.inl ⟨i, _, h1, h2⟩
  · rw [if_neg hok] at he
    by_cases h401 : r.status = 401
    · rw [if_pos h401] at he
      cases hns : slotCall st.noSession <;> rw [hns] at he
      · simp at he
      · simp at he
        exact Or.inr (Or.inl ⟨_, he, slotCall_call_iff.mp hns⟩)
      · simp at he
    · rw [if_neg h401] at he
      simp only [] at he
      cases hh : (Body.handleError st (method ++ " " ++ url ++ " returned invalid status: "
          ++ toString r.status)).2 <;> rw [hh] at he
      all_goals
        rcases handleError_shape e he with ⟨i, h1, h2⟩
        exact Or.inl ⟨i, _, h1, h2⟩

theorem dataStep_shape {fs : List (String × JSVal)} {res : Option JSVal}
    {evs : List Event} : ∀ e ∈ (Body.dataStep fs res evs).1, e ∈ evs := by
  intro e he
  unfold Body.dataStep at he
  cases h : lookupField fs "data" <;> rw [h] at he <;> exact he

theorem warningStep_shape {st : BodyState} {fs : List (String × JSVal)}
    {res : Option JSVal} {evs : List Event} :
    ∀ e ∈ (Body.warningStep st fs res evs).1,
      e ∈ evs ∨ ∃ i w, e = Event.warningHook i w ∧ st.warning = some (JSArg.func i) := by
  intro e he
  unfold Body.warningStep at he
  cases hw : lookupField fs "warning" with
  | none => rw [hw] at he; exact Or.inl (dataStep_shape e he)
  | some w =>
    rw [hw] at he
    simp only [] at he
    by_cases hjw : jsTruthy w
    · rw [if_pos hjw] at he
      cases hsw : slotCall st.warning with
      | skip => rw [hsw] at he; exact Or.inl (dataStep_shape e he)
      | call i =>
        rw [hsw] at he
        rcases List.mem_append.mp (dataStep_shape e he) with h | h
        · exact Or.inl h
        · simp at h
          exact Or.inr ⟨i, w, h, slotCall_call_iff.mp hsw⟩
      | typeError => rw [hsw] at he; exact Or.inl he
    · rw [if_neg hjw] at he
      exact Or.inl (dataStep_shape e he)

theorem stage2_shape {st : BodyState} {f : Nat → JSVal} {result : Option JSVal} :
    ∀ e ∈ (Body.stage2 st f result).1,
      (∃ i v, e = Event.errorCodeHook i v ∧ st.errorCode = some (JSArg.func i)) ∨
      (∃ i w, e = Event.warningHook i w ∧ st.warning = some (JSArg.func i)) := by
  intro e he
  unfold Body.stage2 at he
  cases result with
  | none => simp at he
  | some v =>
    simp only [] at he
    by_cases htv : jsTruthy v = false
    · rw [if_pos htv] at he; simp at he
    · rw [if_neg htv] at he
      cases v with
      | obj fs =>
        simp only [] at he
        cases herr : lookupField fs "error" with
        | none =>
          rw [herr] at he
          rcases warningStep_shape e he with h | h
          · simp at h
          · exact Or.inr h
        | some er =>
          rw [herr] at he
          simp only [] at he
          by_cases hte : jsTruthy er
          · rw [if_pos hte] at he
            cases hec : slotCall st.errorCode with
            | skip => rw [hec] at he; simp at he
            | typeError => rw [hec] at he; simp at he
            | call i =>
              rw [hec] at he
              simp only [] at he
              by_cases hf : isFalseVal (f i)
              · rw [if_pos hf] at he
                simp at he
                exact Or.inl ⟨i, er, he, slotCall_call_iff.mp hec⟩
              · rw [if_neg hf] at he
                rcases warningStep_shape e he with h | h
                · simp at h
                  exact Or.inl ⟨i, er, h, slotCall_call_iff.mp hec⟩
                · exact Or.inr h
          · rw [if_neg hte] at he
            rcases warningStep_shape e he with h | h
            · simp at h
            · exact Or.inr h
      | undefined => simp [jsTruthy] at htv
      | null => simp [jsTruthy] at htv
      | bool b => simp at he
      | num n => simp at he
      | str s => simp at he
      | arr xs => simp at he

theorem fetchSettle_shape {st : BodyState} {method url : String}
    {tr : TransportResult} :
    ∀ e ∈ (Body.fetchSettle st method url tr).1,
      (∃ i m, e = Event.errorHook i m ∧ st.error = some (JSArg.func i)) ∨
      (∃ i, e = Event.noSessionHook i ∧ st.noSession = some (JSArg.func i)) ∨
      e = Event.parsedBody := by
  intro e he
  cases tr with
  | netFail reason => simp [Body.fetchSettle] at he
  | response r => exact stage1_shape e he

theorem classifySettle_shape {st : BodyState} {ecRet : Nat → JSVal}
    {x : Except String (Option JSVal)} :
    ∀ e ∈ (Body.classifySettle st ecRet x).1,
      (∃ i v, e = Event.errorCodeHook i v ∧ st.errorCode = some (JSArg.func i)) ∨
      (∃ i w, e = Event.warningHook i w ∧ st.warning = some (JSArg.func i)) := by
  intro e he
  cases x with
  | ok result => exact stage2_shape e he
  | error err => simp [Body.classifySettle] at he

theorem catchStep_shape {st : BodyState} {method url : String} {x : Option String} :
    ∀ e ∈ (Body.catchStep st method url x).1,
      ∃ i m, e = Event.errorHook i m ∧ st.error = some (JSArg.func i) := by
  intro e he
  cases x with
  | some reason =>
    rcases handleError_shape e he with ⟨i, h1, h2⟩
    exact ⟨i, _, h1, h2⟩
  | none => simp [Body.catchStep] at he

theorem finallyStep_shape {st : BodyState} {res : Option JSVal} {u : Option String} :
    ∀ e ∈ (Body.finallyStep st res u).1,
      ∃ i rr, e = Event.requestedHook i rr ∧ st.requested = some (JSArg.func i) := by
  intro e he
  unfold Body.finallyStep at he
  cases hrq : slotCall st.requested <;> rw [hrq] at he
  · simp at he
  · simp at he
    exact ⟨_, res, he, slotCall_call_iff.mp hrq⟩
  · simp at he

theorem requestChain_shape {st : BodyState} {method url : String}
    {tr : TransportResult} {ecRet : Nat → JSVal} {evs0 : List Event} :
    ∀ e ∈ (Body.requestChain st method url tr ecRet evs0).trace,
      e ∈ evs0 ∨
      (∃ i m, e = Event.errorHook i m ∧ st.error = some (JSArg.func i)) ∨
      (∃ i, e = Event.noSessionHook i ∧ st.noSession = some (JSArg.func i)) ∨
      e = Event.parsedBody ∨
      (∃ i v, e = Event.errorCodeHook i v ∧ st.errorCode = some (JSArg.func i)) ∨
      (∃ i w, e = Event.warningHook i w ∧ st.warning = some (JSArg.func i)) ∨
      (∃ i rr, e = Event.requestedHook i rr ∧ st.requested = some (JSArg.func i)) := by
  intro e he
  unfold Body.requestChain at he
  simp only [List.mem_append] at he
  rcases he with (((h | h) | h) | h) | h
  · exact Or.inl h
  · rcases fetchSettle_shape e h with h1 | h1 | h1
    · exact Or.inr (Or.inl h1)
    · exact Or.inr (Or.inr (Or.inl h1))
    · exact Or.inr (Or.inr (Or.inr (Or.inl h1)))
  · rcases classifySettle_shape e h with h1 | h1
    · exact Or.inr (Or.inr (Or.inr (Or.inr (Or.inl h1))))
    · exact Or.inr (Or.inr (Or.inr (Or.inr (Or.inr (Or.inl h1)))))
  · rcases catchStep_shape e h with ⟨i, m, h1, h2⟩
    exact Or.inr (Or.inl ⟨i, m, h1, h2⟩)
  · exact Or.inr (Or.inr (Or.inr (Or.inr (Or.inr (Or.inr (finallyStep_shape e h))))))

theorem request_trace_shape {st : BodyState} {a : ReqAction} {sv nn : String}
    {d : JSVal} {tr : TransportResult} {f : Nat → JSVal} :
    ∀ e ∈ (Body.request st a sv nn d tr f).1.trace,
      (∃ i, e = Event.requestingHook i ∧ st.requesting = some (JSArg.func i)) ∨
      (∃ i m, e = Event.errorHook i m ∧ st.error = some (JSArg.func i)) ∨
      (∃ i, e = Event.noSessionHook i ∧ st.noSession = some (JSArg.func i)) ∨
      e = Event.parsedBody ∨
      (∃ i v, e = Event.errorCodeHook i v ∧ st.errorCode = some (JSArg.func i)) ∨
      (∃ i w, e = Event.warningHook i w ∧ st.warning = some (JSArg.func i)) ∨
      (∃ i rr, e = Event.requestedHook i rr ∧ st.requested = some (JSArg.func i)) := by
  intro e he
  unfold Body.request at he
  cases hrq : slotCall st.requesting with
  | typeError => rw [hrq] at he; simp at he
  | skip =>
    rw [hrq] at he
    simp only [] at he
    rcases requestChain_shape e he with h | h
    · simp at h
    · exact Or.inr h
  | call i =>
    rw [hrq] at he
    simp only [] at he
    rcases requestChain_shape e he with h | h
    · simp at h
      exact Or.inl ⟨i, h, slotCall_call_iff.mp hrq⟩
    · exact Or.inr h

theorem toDigitsCore_length_le (b : Nat) :
    ∀ (f n : Nat) (ds : List Char), ds.length ≤ (Nat.toDigitsCore b f n ds).length := by
  intro f
  induction f with
  | zero => intro n ds; simp [Nat.toDigitsCore]
  | succ f ih =>
    intro n ds
    simp only [Nat.toDigitsCore]
    split
    · simp
    · exact le_trans (by simp) (ih (n / b) (Nat.digitChar (n % b) :: ds))

theorem toDigits_ne_nil (b n : Nat) : Nat.toDigits b n ≠ [] := by
  unfold Nat.toDigits
  simp only [Nat.toDigitsCore]
  split
  · simp
  · intro h
    have h2 := toDigitsCore_length_le b n (n / b) [Nat.digitChar (n % b)]
    rw [h] at h2
    simp at h2

theorem nat_repr_ne_empty (n : Nat) : Nat.repr n ≠ "" := by
  intro h
  exact toDigits_ne_nil 10 n (congrArg String.data h)

theorem append_ne_empty_left {a : String} (b : String) (ha : a ≠ "") : a ++ b ≠ "" := by
  intro h
  apply ha
  apply String.ext
  have h2 := congrArg String.data h
  rw [String.data_append] at h2
  exact (List.append_eq_nil.mp h2).1

theorem int_repr_ne_empty (n : Int) : Int.repr n ≠ "" := by
  cases n with
  | ofNat m => exact nat_repr_ne_empty m
  | negSucc m => exact append_ne_empty_left _ (by decide)

theorem jsonStringify_ne_empty {v : JSVal} {s : String}
    (h : jsonStringify v = some s) : s ≠ "" := by
  cases v with
  | undefined => simp [jsonStringify] at h
  | null =>
    simp [jsonStringify] at h
    subst h; decide
  | bool b =>
    simp [jsonStringify] at h
    cases b <;> (subst h; decide)
  | num n =>
    simp [jsonStringify] at h
    subst h; exact int_repr_ne_empty n
  | str t =>
    simp [jsonStringify] at h
    subst h
    exact append_ne_empty_left _ (append_ne_empty_left _ (by decide))
  | arr xs =>
    simp [jsonStringify] at h
    subst h
    exact append_ne_empty_left _ (append_ne_empty_left _ (by decide))
  | obj fs =>
    simp [jsonStringify] at h
    subst h
    exact append_ne_empty_left _ (append_ne_empty_left _ (by decide))

/-- C5: for every action the HTTP method follows the fixed table
create→POST, read→GET, update→PUT, delete→DELETE; for `read` with a present
(non-null, JSON-serialisable) payload the payload's JSON text is
percent-encoded into the single query parameter `d` and no request body is
set, while for the other three actions the payload's JSON text becomes the
request body and the JSON content type is sent. -/
theorem c5_method_and_payload (st : BodyState) (a : ReqAction) (service noun : String)
    (data : JSVal) (s : String)
    (hnull : isNullVal data = false) (hs : jsonStringify data = some s) :
    (buildRequest st a service noun data).1.method = METHODS a ∧
    (a = ReqAction.read →
      (buildRequest st a service noun data).2 =
        "https://" ++ st._domain ++ "/" ++ service ++ "/" ++ noun ++ "?d=" ++
          encodeURIComponent s ∧
      (buildRequest st a service noun data).1.body = none) ∧
    (a ≠ ReqAction.read →
      (buildRequest st a service noun data).1.body = some s ∧
      (buildRequest st a service noun data).1.contentType = jsonCT) := by
  have hne := jsonStringify_ne_empty hs
  refine ⟨rfl, ?_, ?_⟩
  · intro ha
    subst ha
    constructor
    · simp [buildRequest, hnull, hs]
    · simp [buildRequest, hnull]
  · intro ha
    constructor
    · simp [buildRequest, hnull, hs, ha, hne]
    · rfl

/-- C6: a request built while a session token is held (set via `session` and
not cleared; the source's truthiness guard means a held token is a non-empty
string) carries the token verbatim as the `Authorization` header, and a
request built after the session is cleared carries no such header. -/
theorem c6_session_header (st st2 : BodyState) (a a2 : ReqAction) (sv nn sv2 nn2 : String)
    (d d2 : JSVal) (t : String) (ht : t ≠ "") :
    (buildRequest (Body.session st (some t)) a sv nn d).1.authorization = some t ∧
    (buildRequest (Body.session st2 none) a2 sv2 nn2 d2).1.authorization = none := by
  constructor
  · simp [buildRequest, Body.session, ht]
  · simp [buildRequest, Body.session]

/-- C10: a dispatch never mutates the stored state — the domain, the session
token and all six callback slots are identical before and after the call, for
every action, transport settlement and envelope; in particular a 401 response
does not clear the stored token. -/
theorem c10_state_unchanged (st : BodyState) (a : ReqAction) (sv nn : String)
    (d : JSVal) (tr : TransportResult) (f : Nat → JSVal) :
    (Body.request st a sv nn d tr f).2 = st := by
  unfold Body.request
  cases hrq : slotCall st.requesting <;> rfl

theorem slotOf_onStep (st : BodyState) (p : String × JSArg) (k : String)
    (hk : k ∈ knownKinds) :
    slotOf k (Body.onStep st p) = if p.1 = k then some p.2 else slotOf k st := by
  have hcase : k = "error" ∨ k = "errorCode" ∨ k = "noSession" ∨ k = "requested" ∨
      k = "requesting" ∨ k = "warning" := by simpa [knownKinds] using hk
  rcases hcase with h | h | h | h | h | h <;> subst h <;>
    (unfold Body.onStep; split_ifs <;> simp_all [slotOf])

theorem onStep_unknown (st : BodyState) (p : String × JSArg)
    (hp : p.1 ∉ knownKinds) : Body.onStep st p = st := by
  simp only [knownKinds, List.mem_cons, List.not_mem_nil, or_false, not_or] at hp
  obtain ⟨h1, h2, h3, h4, h5, h6⟩ := hp
  simp [Body.onStep, h1, h2, h3, h4, h5, h6]

theorem on'_filter_known (st : BodyState) (m : List (String × JSArg)) :
    Body.on' st m = Body.on' st (m.filter (fun p => decide (p.1 ∈ knownKinds))) := by
  induction m generalizing st with
  | nil => rfl
  | cons p rest ih =>
    by_cases hp : p.1 ∈ knownKinds
    · rw [List.filter_cons_of_pos (by simpa using hp)]
      simp only [Body.on', List.foldl_cons]
      exact ih (Body.onStep st p)
    · rw [List.filter_cons_of_neg (by simpa using hp)]
      simp only [Body.on', List.foldl_cons]
      rw [onStep_unknown st p hp]
      exact ih st

theorem slotOf_on' (st : BodyState) (m : List (String × JSArg)) (k : String)
    (hk : k ∈ knownKinds) :
    slotOf k (Body.on' st m) = (lastVal m k).or (slotOf k st) := by
  induction m generalizing st with
  | nil => rfl
  | cons p rest ih =>
    simp only [Body.on', List.foldl_cons]
    have hih := ih (Body.onStep st p)
    simp only [Body.on'] at hih
    rw [hih, slotOf_onStep st p k hk]
    cases hl : lastVal rest k with
    | some v => simp [lastVal, hl]
    | none =>
      simp only [lastVal, hl]
      split <;> simp

theorem mem_hookIds {st : BodyState} {i : Nat}
    (h : st.error = some (JSArg.func i) ∨ st.errorCode = some (JSArg.func i) ∨
         st.noSession = some (JSArg.func i) ∨ st.requested = some (JSArg.func i) ∨
         st.requesting = some (JSArg.func i) ∨ st.warning = some (JSArg.func i)) :
    i ∈ hookIds st := by
  rcases h with h | h | h | h | h | h <;> simp [hookIds, h]

theorem request_trace_ids {st : BodyState} {a : ReqAction} {sv nn : String}
    {d : JSVal} {tr : TransportResult} {f : Nat → JSVal} {i : Nat}
    (hni : i ∉ hookIds st) :
    ∀ e ∈ (Body.request st a sv nn d tr f).1.trace, eventId e ≠ some i := by
  intro e he hcon
  rcases request_trace_shape e he with ⟨j, h1, h2⟩ | ⟨j, m, h1, h2⟩ | ⟨j, h1, h2⟩ |
    h1 | ⟨j, v, h1, h2⟩ | ⟨j, w, h1, h2⟩ | ⟨j, rr, h1, h2⟩ <;>
      subst h1 <;> simp [eventId] at hcon <;> subst hcon <;>
      exact hni (mem_hookIds (by tauto))

/-- C8: batch callback registration applies every known kind→callback pair in
the map (later members of the same key winning, as in a JS object) and
silently ignores unknown kinds, which change no slot; each kind has a single
slot, so re-registering replaces the previous handler, and no dispatch from a
state whose slots no longer hold a function id ever fires an event carrying
that id — the replaced handler is never invoked. -/
theorem c8_batch_and_replacement :
    (∀ (st : BodyState) (m : List (String × JSArg)),
      Body.on' st m = Body.on' st (m.filter (fun p => decide (p.1 ∈ knownKinds)))) ∧
    (∀ (st : BodyState) (m : List (String × JSArg)) (k : String), k ∈ knownKinds →
      slotOf k (Body.on' st m) = (lastVal m k).or (slotOf k st)) ∧
    (∀ (st : BodyState) (a : ReqAction) (sv nn : String) (d : JSVal)
      (tr : TransportResult) (f : Nat → JSVal) (i : Nat), i ∉ hookIds st →
      ∀ e ∈ (Body.request st a sv nn d tr f).1.trace, eventId e ≠ some i) :=
  ⟨on'_filter_known, fun st m k hk => slotOf_on' st m k hk,
   fun _ _ _ _ _ _ _ _ hni => request_trace_ids hni⟩

/-- Witness for C8 at concrete inputs: re-registering `warning` (id 4 then
id 7) leaves id 7 in the slot, an unknown kind is ignored, and a dispatch
from the empty state fires no event of the stale id 4. -/
theorem c8_witness :
    slotOf "warning" (Body.on' stNone
      [("warning", JSArg.func 4), ("bogus", JSArg.func 9), ("warning", JSArg.func 7)]) =
      some (JSArg.func 7) ∧
    (∀ e ∈ (Body.request stNone ReqAction.read "s" "n" JSVal.null
        (TransportResult.response (okJson (JSVal.obj []))) retUndef).1.trace,
      eventId e ≠ some 4) := by
  constructor
  · rw [c8_batch_and_replacement.2.1 stNone
      [("warning", JSArg.func 4), ("bogus", JSArg.func 9), ("warning", JSArg.func 7)]
      "warning" (by decide)]
    rfl
  · exact c8_batch_and_replacement.2.2 stNone ReqAction.read "s" "n" JSVal.null
      (TransportResult.response (okJson (JSVal.obj []))) retUndef 4 (by decide)

/-- C7 counterexample: the batch registration accepts a non-callable value
with no error and stores it in the slot, refuting the claim that every
callback-registration operation fails synchronously on non-callables. -/
theorem c7_counterexample :
    (Body.on' stNone [("error", JSArg.value (JSVal.num 5))]).error =
      some (JSArg.value (JSVal.num 5)) := by
  rfl

/-- C7 (amended): each single-kind registration operation (`onError`,
`onErrorCode`, `onNoSession`, `onRequested`, `onRequesting`, `onWarning`)
fails immediately and synchronously with an invalid-callback error when
supplied a non-callable; the batch `on`, however, performs no check and
silently stores whatever value is supplied for a known kind. -/
theorem c7_amended_registration :
    (∀ (st : BodyState) (cb : JSArg), isFunc cb = false →
      Body.onError st cb = Except.error "onError() called with an invalid callback" ∧
      Body.onErrorCode st cb = Except.error "onErrorCode() called with an invalid callback" ∧
      Body.onNoSession st cb = Except.error "onNoSession() called with an invalid callback" ∧
      Body.onRequested st cb = Except.error "onRequested() called with an invalid callback" ∧
      Body.onRequesting st cb = Except.error "onRequesting() called with an invalid callback" ∧
      Body.onWarning st cb = Except.error "onWarning() called with an invalid callback") ∧
    (∀ (st : BodyState) (k : String) (v : JSVal), k ∈ knownKinds →
      slotOf k (Body.on' st [(k, JSArg.value v)]) = some (JSArg.value v)) := by
  constructor
  · intro st cb hcb
    refine ⟨?_, ?_, ?_, ?_, ?_, ?_⟩ <;>
      simp [Body.onError, Body.onErrorCode, Body.onNoSession, Body.onRequested,
        Body.onRequesting, Body.onWarning, hcb]
  · intro st k v hk
    rw [slotOf_on' st _ k hk]
    simp [lastVal]

/-- Witness for C7 at concrete inputs: `onError` with the non-callable `null`
fails with the invalid-callback error, and the batch registration silently
stores a non-callable number under `warning`. -/
theorem c7_witness :
    Body.onError stNone (JSArg.value JSVal.null) =
      Except.error "onError() called with an invalid callback" ∧
    slotOf "warning" (Body.on' stNone [("warning", JSArg.value (JSVal.num 5))]) =
      some (JSArg.value (JSVal.num 5)) :=
  ⟨(c7_amended_registration.1 stNone (JSArg.value JSVal.null) rfl).1,
   c7_amended_registration.2 stNone "warning" (JSVal.num 5) (by decide)⟩

/-- Witness for C5 at concrete inputs: `read` of `{id:"abc"}` yields a GET
with the JSON-then-percent-encoded `d` query parameter and no body;
`create` of `{name:"x"}` yields the literal JSON body with the JSON content
type. -/
theorem c5_witness :
    (buildRequest stNone ReqAction.read "my_service" "my_request"
        (JSVal.obj [("id", JSVal.str "abc")])).1.method = METHODS ReqAction.read ∧
    ((buildRequest stNone ReqAction.read "my_service" "my_request"
        (JSVal.obj [("id", JSVal.str "abc")])).2 =
      "https://" ++ stNone._domain ++ "/" ++ "my_service" ++ "/" ++ "my_request" ++
        "?d=" ++ encodeURIComponent "\x7b\"id\":\"abc\"\x7d" ∧
     (buildRequest stNone ReqAction.read "my_service" "my_request"
        (JSVal.obj [("id", JSVal.str "abc")])).1.body = none) ∧
    ((buildRequest stNone ReqAction.create "s" "n"
        (JSVal.obj [("name", JSVal.str "x")])).1.body = some "\x7b\"name\":\"x\"\x7d" ∧
     (buildRequest stNone ReqAction.create "s" "n"
        (JSVal.obj [("name", JSVal.str "x")])).1.contentType = jsonCT) :=
  ⟨(c5_method_and_payload stNone ReqAction.read "my_service" "my_request"
      (JSVal.obj [("id", JSVal.str "abc")]) "\x7b\"id\":\"abc\"\x7d" rfl rfl).1,
   (c5_method_and_payload stNone ReqAction.read "my_service" "my_request"
      (JSVal.obj [("id", JSVal.str "abc")]) "\x7b\"id\":\"abc\"\x7d" rfl rfl).2.1 rfl,
   (c5_method_and_payload stNone ReqAction.create "s" "n"
      (JSVal.obj [("name", JSVal.str "x")]) "\x7b\"name\":\"x\"\x7d" rfl rfl).2.2 (by decide)⟩

/-- Witness for C6 at concrete inputs: after `session("tok123")` the built
request carries `Authorization: tok123`; after `session(null)` it carries no
Authorization header. -/
theorem c6_witness :
    (buildRequest (Body.session stNone (some "tok123")) ReqAction.read "s" "n"
        JSVal.null).1.authorization = some "tok123" ∧
    (buildRequest (Body.session stNone none) ReqAction.read "s" "n"
        JSVal.null).1.authorization = none :=
  c6_session_header stNone stNone ReqAction.read ReqAction.read "s" "n" "s" "n"
    JSVal.null JSVal.null "tok123" (by decide)

theorem fetchSettle_not_requested {st : BodyState} {method url : String}
    {tr : TransportResult} :
    ∀ e ∈ (Body.fetchSettle st method url tr).1, isRequestedEv e = false := by
  intro e he
  rcases fetchSettle_shape e he with ⟨i, m, h1, -⟩ | ⟨i, h1, -⟩ | h1 <;>
    subst h1 <;> rfl

theorem classifySettle_not_requested {st : BodyState} {ecRet : Nat → JSVal}
    {x : Except String (Option JSVal)} :
    ∀ e ∈ (Body.classifySettle st ecRet x).1, isRequestedEv e = false := by
  intro e he
  rcases classifySettle_shape e he with ⟨i, v, h1, -⟩ | ⟨i, w, h1, -⟩ <;>
    subst h1 <;> rfl

theorem catchStep_not_requested {st : BodyState} {method url : String}
    {x : Option String} :
    ∀ e ∈ (Body.catchStep st method url x).1, isRequestedEv e = false := by
  intro e he
  rcases catchStep_shape e he with ⟨i, m, h1, -⟩
  subst h1; rfl

theorem requestChain_requested_once (st : BodyState) (method url : String)
    (tr : TransportResult) (ecRet : Nat → JSVal) (evs0 : List Event) (i : Nat)
    (hr : st.requested = some (JSArg.func i))
    (h0 : ∀ e ∈ evs0, isRequestedEv e = false) :
    ∃ pre rr, (Body.requestChain st method url tr ecRet evs0).trace =
      pre ++ [Event.requestedHook i rr] ∧ ∀ e ∈ pre, isRequestedEv e = false := by
  have hcall : slotCall st.requested = SlotAction.call i := by rw [hr]; rfl
  refine ⟨evs0 ++ (Body.fetchSettle st method url tr).1 ++
      (Body.classifySettle st ecRet (Body.fetchSettle st method url tr).2).1 ++
      (Body.catchStep st method url
        (Body.classifySettle st ecRet (Body.fetchSettle st method url tr).2).2.2.2).1,
    (Body.classifySettle st ecRet (Body.fetchSettle st method url tr).2).2.1, ?_, ?_⟩
  · simp only [Body.requestChain, Body.finallyStep, hcall]
  · intro e he
    simp only [List.mem_append] at he
    rcases he with ((h | h) | h) | h
    · exact h0 e h
    · exact fetchSettle_not_requested e h
    · exact classifySettle_not_requested e h
    · exact catchStep_not_requested e h

/-- C9: on every dispatched call on which the transport settles (and which
reaches the transport at all: the `requesting` slot does not throw), a
registered after-request hook fires exactly once, as the final event after
response classification, whatever the outcome. -/
theorem c9_requested_once (st : BodyState) (a : ReqAction) (sv nn : String)
    (d : JSVal) (tr : TransportResult) (f : Nat → JSVal) (i : Nat)
    (hreq : slotCall st.requesting ≠ SlotAction.typeError)
    (hr : st.requested = some (JSArg.func i)) :
    ∃ pre rr, (Body.request st a sv nn d tr f).1.trace =
      pre ++ [Event.requestedHook i rr] ∧ ∀ e ∈ pre, isRequestedEv e = false := by
  unfold Body.request
  cases hrq : slotCall st.requesting with
  | typeError => exact absurd hrq hreq
  | skip =>
    simp only [hrq]
    exact requestChain_requested_once st _ _ tr f [] i hr (by simp)
  | call j =>
    simp only [hrq]
    apply requestChain_requested_once st _ _ tr f [Event.requestingHook j] i hr
    intro e he
    simp at he
    subst he
    rfl

/-- Witness for C9 at a concrete input: with a registered after-request hook
(id 2) and a plain 2xx empty-envelope response, the trace ends with exactly
one `requestedHook 2` event. -/
theorem c9_witness :
    ∃ pre rr, (Body.request { stNone with requested := some (JSArg.func 2) }
        ReqAction.read "s" "n" JSVal.null
        (TransportResult.response (okJson (JSVal.obj []))) retUndef).1.trace =
      pre ++ [Event.requestedHook 2 rr] ∧ ∀ e ∈ pre, isRequestedEv e = false :=
  c9_requested_once { stNone with requested := some (JSArg.func 2) }
    ReqAction.read "s" "n" JSVal.null
    (TransportResult.response (okJson (JSVal.obj []))) retUndef 2 (by decide) rfl

theorem handleError_call {st : BodyState} {i : Nat} (m : String)
    (h : slotCall st.error = SlotAction.call i) :
    Body.handleError st m = ([Event.errorHook i m], none) := by
  unfold Body.handleError
  rw [h]

theorem handleError_skip {st : BodyState} (m : String)
    (h : slotCall st.error = SlotAction.skip) :
    Body.handleError st m = ([], some ("Error: " ++ m)) := by
  unfold Body.handleError
  rw [h]

theorem parseStep_fst (evs : List Event) (r : HttpResponse) :
    (Body.parseStep evs r).1 = evs ++ [Event.parsedBody] := by
  unfold Body.parseStep
  cases hb : r.body <;> rfl

theorem dataStep_fst (fs : List (String × JSVal)) (res : Option JSVal)
    (evs : List Event) : (Body.dataStep fs res evs).1 = evs := by
  unfold Body.dataStep
  cases hd : lookupField fs "data" <;> rfl

theorem stage1_ok_json {st : BodyState} {method url : String} {r : HttpResponse}
    {v : JSVal} (hok : 200 ≤ r.status ∧ r.status < 300)
    (hct : r.contentType = some jsonCT) (hbody : r.body = BodyParse.ok v) :
    Body.stage1 st method url r = ([Event.parsedBody], Except.ok (some v)) := by
  unfold Body.stage1
  rw [if_pos hok, if_pos hct]
  unfold Body.parseStep
  rw [hbody]
  rfl

theorem stage1_badct_call (st : BodyState) (method url : String) {r : HttpResponse}
    {i : Nat} (hok : 200 ≤ r.status ∧ r.status < 300)
    (hct : r.contentType ≠ some jsonCT) (hcall : slotCall st.error = SlotAction.call i) :
    Body.stage1 st method url r =
      Body.parseStep [Event.errorHook i (method ++ " " ++ url ++
        " returned invalid Content-Type: " ++ (r.contentType.getD "null"))] r := by
  unfold Body.stage1
  rw [if_pos hok, if_neg hct]
  simp only []
  rw [handleError_call _ hcall]

theorem stage1_badct_skip (st : BodyState) (method url : String) {r : HttpResponse}
    (hok : 200 ≤ r.status ∧ r.status < 300)
    (hct : r.contentType ≠ some jsonCT) (hskip : slotCall st.error = SlotAction.skip) :
    Body.stage1 st method url r =
      ([], Except.error ("Error: " ++ (method ++ " " ++ url ++
        " returned invalid Content-Type: " ++ (r.contentType.getD "null")))) := by
  unfold Body.stage1
  rw [if_pos hok, if_neg hct]
  simp only []
  rw [handleError_skip _ hskip]

theorem stage1_401_call (st : BodyState) (method url : String) {r : HttpResponse}
    {i : Nat} (hst : r.status = 401) (hns : slotCall st.noSession = SlotAction.call i) :
    Body.stage1 st method url r = ([Event.noSessionHook i], Except.ok none) := by
  unfold Body.stage1
  rw [hst]
  rw [if_neg (by decide), if_pos rfl, hns]

theorem stage1_401_skip (st : BodyState) (method url : String) {r : HttpResponse}
    (hst : r.status = 401) (hns : slotCall st.noSession = SlotAction.skip) :
    Body.stage1 st method url r =
      ([], Except.error ("Error: " ++ method ++ " " ++ url ++
        " return 401 NOT AUTHORIZED")) := by
  unfold Body.stage1
  rw [hst]
  rw [if_neg (by decide), if_pos rfl, hns]

theorem stage2_obj_err_skip {st : BodyState} {f : Nat → JSVal}
    {fs : List (String × JSVal)} {e : JSVal}
    (herr : lookupField fs "error" = some e) (hte : jsTruthy e = true)
    (hec : slotCall st.errorCode = SlotAction.skip) :
    Body.stage2 st f (some (JSVal.obj fs)) =
      ([], some (JSVal.obj fs), Outcome.rejected e, none) := by
  unfold Body.stage2
  simp only []
  rw [if_neg (show ¬(jsTruthy (JSVal.obj fs) = false) by simp [jsTruthy])]
  rw [herr]
  simp only []
  rw [if_pos hte, hec]

theorem stage2_obj_err_call {st : BodyState} {f : Nat → JSVal}
    {fs : List (String × JSVal)} {e : JSVal} {i : Nat}
    (herr : lookupField fs "error" = some e) (hte : jsTruthy e = true)
    (hec : slotCall st.errorCode = SlotAction.call i) :
    Body.stage2 st f (some (JSVal.obj fs)) =
      if isFalseVal (f i) = true then
        ([Event.errorCodeHook i e], some (JSVal.obj fs), Outcome.rejected e, none)
      else Body.warningStep st fs (some (JSVal.obj fs)) [Event.errorCodeHook i e] := by
  unfold Body.stage2
  simp only []
  rw [if_neg (show ¬(jsTruthy (JSVal.obj fs) = false) by simp [jsTruthy])]
  rw [herr]
  simp only []
  rw [if_pos hte, hec]

theorem stage2_obj_no_err {st : BodyState} {f : Nat → JSVal}
    {fs : List (String × JSVal)}
    (hno : ∀ e, lookupField fs "error" = some e → jsTruthy e = false) :
    Body.stage2 st f (some (JSVal.obj fs)) =
      Body.warningStep st fs (some (JSVal.obj fs)) [] := by
  unfold Body.stage2
  simp only []
  rw [if_neg (show ¬(jsTruthy (JSVal.obj fs) = false) by simp [jsTruthy])]
  cases herr : lookupField fs "error" with
  | none => rfl
  | some e =>
    have hf := hno e herr
    simp only []
    rw [if_neg (by simp [hf])]

theorem warningStep_outcome_nodata (st : BodyState) (fs : List (String × JSVal))
    (res : Option JSVal) (evs : List Event) (hd : lookupField fs "data" = none) :
    (Body.warningStep st fs res evs).2.2.1 = Outcome.pending := by
  unfold Body.warningStep
  repeat' split
  all_goals simp [Body.dataStep, hd]

theorem warningStep_outcome_data (st : BodyState) (fs : List (String × JSVal))
    (res : Option JSVal) (evs : List Event) (dv : JSVal)
    (hnw : slotCall st.warning ≠ SlotAction.typeError)
    (hd : lookupField fs "data" = some dv) :
    (Body.warningStep st fs res evs).2.2.1 = Outcome.resolved dv := by
  unfold Body.warningStep
  repeat' split
  all_goals simp_all [Body.dataStep, hd]

theorem warningStep_mem (st : BodyState) (fs : List (String × JSVal))
    (res : Option JSVal) (evs : List Event) {e : Event} (h : e ∈ evs) :
    e ∈ (Body.warningStep st fs res evs).1 := by
  unfold Body.warningStep
  repeat' split
  all_goals simp [dataStep_fst, h]

theorem requestChain_outcome (st : BodyState) (m u : String) (tr : TransportResult)
    (f : Nat → JSVal) (evs0 : List Event) :
    (Body.requestChain st m u tr f evs0).outcome =
      (Body.classifySettle st f (Body.fetchSettle st m u tr).2).2.2.1 := rfl

theorem requestChain_uncaught (st : BodyState) (m u : String) (tr : TransportResult)
    (f : Nat → JSVal) (evs0 : List Event) :
    (Body.requestChain st m u tr f evs0).uncaught =
      (Body.finallyStep st
        (Body.classifySettle st f (Body.fetchSettle st m u tr).2).2.1
        (Body.catchStep st m u
          (Body.classifySettle st f (Body.fetchSettle st m u tr).2).2.2.2).2).2 := rfl

theorem requestChain_trace (st : BodyState) (m u : String) (tr : TransportResult)
    (f : Nat → JSVal) (evs0 : List Event) :
    (Body.requestChain st m u tr f evs0).trace =
      evs0 ++ (Body.fetchSettle st m u tr).1 ++
        (Body.classifySettle st f (Body.fetchSettle st m u tr).2).1 ++
        (Body.catchStep st m u
          (Body.classifySettle st f (Body.fetchSettle st m u tr).2).2.2.2).1 ++
        (Body.finallyStep st
          (Body.classifySettle st f (Body.fetchSettle st m u tr).2).2.1
          (Body.catchStep st m u
            (Body.classifySettle st f
              (Body.fetchSettle st m u tr).2).2.2.2).2).1 := rfl

theorem request_eq_chain (st : BodyState) (a : ReqAction) (sv nn : String)
    (d : JSVal) (tr : TransportResult) (f : Nat → JSVal)
    (hreq : slotCall st.requesting ≠ SlotAction.typeError) :
    ∃ evs0, (evs0 = [] ∨ ∃ j, evs0 = [Event.requestingHook j]) ∧
      (Body.request st a sv nn d tr f).1 =
        Body.requestChain st (buildRequest st a sv nn d).1.method
          (buildRequest st a sv nn d).2 tr f evs0 := by
  unfold Body.request
  cases hrq : slotCall st.requesting with
  | typeError => exact absurd hrq hreq
  | skip => exact ⟨[], Or.inl rfl, rfl⟩
  | call j => exact ⟨[Event.requestingHook j], Or.inr ⟨j, rfl⟩, rfl⟩

/-- C1 counterexample: with an error-code hook registered whose return is
exactly the boolean `false`, the call REJECTS with the error object — the
source's `=== false` test (index.ts lines 253-258) selects rejection on
`false` and suppression on any other return, the reverse of the claim. -/
theorem c1_counterexample :
    (Body.request { stNone with errorCode := some (JSArg.func 0) } ReqAction.read
      "s" "n" JSVal.null (TransportResult.response (okJson envErr1))
      retFalse).1.outcome = Outcome.rejected errObj1 := rfl

/-- C1 (amended): for every dispatched request whose parsed envelope carries
a truthy `error` field: when the error-code slot is falsy the promise
rejects with the error object and no error-code hook fires; when a hook is
registered it is invoked with the error object, a return of exactly the
boolean `false` leads to rejection with the error object, and any other
return value suppresses the error — classification continues as if no error
were present, resolving with the `data` member when one exists and otherwise
never settling. -/
theorem c1_amended_errorCode (st : BodyState) (a : ReqAction) (sv nn : String)
    (d : JSVal) (r : HttpResponse) (f : Nat → JSVal) (fs : List (String × JSVal))
    (e : JSVal)
    (hok : 200 ≤ r.status ∧ r.status < 300)
    (hct : r.contentType = some jsonCT)
    (hbody : r.body = BodyParse.ok (JSVal.obj fs))
    (herr : lookupField fs "error" = some e)
    (hte : jsTruthy e = true)
    (hreq : slotCall st.requesting ≠ SlotAction.typeError) :
    (slotCall st.errorCode = SlotAction.skip →
      (Body.request st a sv nn d (TransportResult.response r) f).1.outcome =
        Outcome.rejected e ∧
      ∀ ev ∈ (Body.request st a sv nn d (TransportResult.response r) f).1.trace,
        ∀ i v, ev ≠ Event.errorCodeHook i v) ∧
    (∀ i, slotCall st.errorCode = SlotAction.call i →
      Event.errorCodeHook i e ∈
        (Body.request st a sv nn d (TransportResult.response r) f).1.trace ∧
      (isFalseVal (f i) = true →
        (Body.request st a sv nn d (TransportResult.response r) f).1.outcome =
          Outcome.rejected e) ∧
      (isFalseVal (f i) = false → slotCall st.warning ≠ SlotAction.typeError →
        (Body.request st a sv nn d (TransportResult.response r) f).1.outcome =
          match lookupField fs "data" with
          | some dv => Outcome.resolved dv
          | none => Outcome.pending)) := by
  obtain ⟨evs0, hevs0, hch⟩ :=
    request_eq_chain st a sv nn d (TransportResult.response r) f hreq
  have hfs : Body.fetchSettle st (buildRequest st a sv nn d).1.method
      (buildRequest st a sv nn d).2 (TransportResult.response r) =
      ([Event.parsedBody], Except.ok (some (JSVal.obj fs))) :=
    stage1_ok_json hok hct hbody
  constructor
  · intro hec
    constructor
    · rw [hch, requestChain_outcome, hfs]
      simp only []
      rw [show Body.classifySettle st f (Except.ok (some (JSVal.obj fs))) =
          Body.stage2 st f (some (JSVal.obj fs)) from rfl]
      rw [stage2_obj_err_skip herr hte hec]
    · intro ev hmem i v hcon
      rcases request_trace_shape ev hmem with ⟨j, h1, -⟩ | ⟨j, m, h1, -⟩ |
        ⟨j, h1, -⟩ | h1 | ⟨j, w, h1, h2⟩ | ⟨j, w, h1, -⟩ | ⟨j, rr, h1, -⟩ <;>
        rw [hcon] at h1 <;> try simp at h1
      have hcc := slotCall_call_iff.mpr h2
      rw [hec] at hcc
      exact SlotAction.noConfusion hcc
  · intro i hec
    refine ⟨?_, ?_, ?_⟩
    · rw [hch, requestChain_trace, hfs]
      simp only []
      rw [show Body.classifySettle st f (Except.ok (some (JSVal.obj fs))) =
          Body.stage2 st f (some (JSVal.obj fs)) from rfl]
      rw [stage2_obj_err_call herr hte hec]
      by_cases hf : isFalseVal (f i) = true
      · rw [if_pos hf]
        simp
      · rw [if_neg hf]
        simp only [List.mem_append]
        exact Or.inl (Or.inl (Or.inr (warningStep_mem _ _ _ _ (by simp))))
    · intro hf
      rw [hch, requestChain_outcome, hfs]
      simp only []
      rw [show Body.classifySettle st f (Except.ok (some (JSVal.obj fs))) =
          Body.stage2 st f (some (JSVal.obj fs)) from rfl]
      rw [stage2_obj_err_call herr hte hec, if_pos hf]
    · intro hf hw
      rw [hch, requestChain_outcome, hfs]
      simp only []
      rw [show Body.classifySettle st f (Except.ok (some (JSVal.obj fs))) =
          Body.stage2 st f (some (JSVal.obj fs)) from rfl]
      rw [stage2_obj_err_call herr hte hec, if_neg (by simp [hf])]
      cases hd : lookupField fs "data" with
      | some dv => rw [warningStep_outcome_data st fs _ _ dv hw hd]
      | none => rw [warningStep_outcome_nodata st fs _ _ hd]

/-- Witness for C1 (amended) at a concrete input: with hook id 0 registered
and a `false` return, the hook fires with the error object and the call
rejects with the error object. -/
theorem c1_witness :
    Event.errorCodeHook 0 errObj1 ∈
      (Body.request { stNone with errorCode := some (JSArg.func 0) } ReqAction.read
        "s" "n" JSVal.null (TransportResult.response (okJson envErr1))
        retFalse).1.trace ∧
    (Body.request { stNone with errorCode := some (JSArg.func 0) } ReqAction.read
      "s" "n" JSVal.null (TransportResult.response (okJson envErr1))
      retFalse).1.outcome = Outcome.rejected errObj1 := by
  have h := (c1_amended_errorCode { stNone with errorCode := some (JSArg.func 0) }
    ReqAction.read "s" "n" JSVal.null (okJson envErr1) retFalse
    [("error", errObj1)] errObj1 (by decide) rfl rfl rfl rfl (by decide)).2 0 rfl
  exact ⟨h.1, h.2.1 rfl⟩

/-- C2 counterexample: a 2xx response with the JSON content type and the
empty envelope leaves the promise UNSETTLED — neither `resolve` nor `reject`
is ever called (`Outcome.pending`, a constructor distinct from every
`Outcome.resolved` value), refuting the claim that the call resolves with an
empty/undefined value. -/
theorem c2_counterexample :
    (Body.request stNone ReqAction.read "s" "n" JSVal.null
      (TransportResult.response (okJson (JSVal.obj []))) retUndef).1.outcome =
      Outcome.pending ∧
    (Body.request stNone ReqAction.read "s" "n" JSVal.null
      (TransportResult.response (okJson (JSVal.obj []))) retUndef).1.uncaught =
      none := ⟨rfl, rfl⟩

/-- C2 (amended): for every dispatched request whose body parses to an
envelope object with no `data` member and no unsuppressed truthy `error`
(including the empty envelope), the call's promise never settles: it
neither resolves nor rejects. -/
theorem c2_amended_pending (st : BodyState) (a : ReqAction) (sv nn : String)
    (d : JSVal) (r : HttpResponse) (f : Nat → JSVal) (fs : List (String × JSVal))
    (hok : 200 ≤ r.status ∧ r.status < 300)
    (hct : r.contentType = some jsonCT)
    (hbody : r.body = BodyParse.ok (JSVal.obj fs))
    (hdata : lookupField fs "data" = none)
    (hsupp : (∀ e, lookupField fs "error" = some e → jsTruthy e = false) ∨
      (∃ i e, lookupField fs "error" = some e ∧ jsTruthy e = true ∧
        slotCall st.errorCode = SlotAction.call i ∧ isFalseVal (f i) = false))
    (hreq : slotCall st.requesting ≠ SlotAction.typeError) :
    (Body.request st a sv nn d (TransportResult.response r) f).1.outcome =
      Outcome.pending := by
  obtain ⟨evs0, hevs0, hch⟩ :=
    request_eq_chain st a sv nn d (TransportResult.response r) f hreq
  have hfs : Body.fetchSettle st (buildRequest st a sv nn d).1.method
      (buildRequest st a sv nn d).2 (TransportResult.response r) =
      ([Event.parsedBody], Except.ok (some (JSVal.obj fs))) :=
    stage1_ok_json hok hct hbody
  rw [hch, requestChain_outcome, hfs]
  simp only []
  rw [show Body.classifySettle st f (Except.ok (some (JSVal.obj fs))) =
      Body.stage2 st f (some (JSVal.obj fs)) from rfl]
  rcases hsupp with hno | ⟨i, e, herr, hte, hec, hf⟩
  · rw [stage2_obj_no_err hno]
    exact warningStep_outcome_nodata st fs _ _ hdata
  · rw [stage2_obj_err_call herr hte hec, if_neg (by simp [hf])]
    exact warningStep_outcome_nodata st fs _ _ hdata

/-- Witness for C2 (amended) at a concrete input: the empty envelope over a
fresh state leaves the promise pending. -/
theorem c2_witness :
    (Body.request stNone ReqAction.update "s" "n" JSVal.null
      (TransportResult.response (okJson (JSVal.obj []))) retUndef).1.outcome =
      Outcome.pending :=
  c2_amended_pending stNone ReqAction.update "s" "n" JSVal.null
    (okJson (JSVal.obj [])) retUndef [] (by decide) rfl rfl rfl
    (Or.inl (fun e h => Option.noConfusion h)) (by decide)

/-- C3 counterexample: a 2xx response with Content-Type `text/html` and a
registered transport-error hook: the hook is invoked, but the body IS parsed
as JSON and classification continues — the call even resolves with the
body's `data` — refuting the claim that the body is not parsed.  (After
`handleError` returns, index.ts line 215 still runs `response.json()`.) -/
theorem c3_counterexample :
    Event.parsedBody ∈ (Body.request { stNone with error := some (JSArg.func 0) }
      ReqAction.read "s" "n" JSVal.null (TransportResult.response htmlData42)
      retUndef).1.trace ∧
    (Body.request { stNone with error := some (JSArg.func 0) }
      ReqAction.read "s" "n" JSVal.null (TransportResult.response htmlData42)
      retUndef).1.outcome = Outcome.resolved (JSVal.num 42) := by
  constructor
  · have h : (Body.request { stNone with error := some (JSArg.func 0) }
        ReqAction.read "s" "n" JSVal.null (TransportResult.response htmlData42)
        retUndef).1.trace =
        [Event.errorHook 0 "GET https://localhost/s/n returned invalid Content-Type: text/html",
         Event.parsedBody] := rfl
    rw [h]
    simp
  · rfl

/-- C3 (amended): for every dispatched request receiving a 2xx response
whose Content-Type is missing or differs from the expected JSON content
type, the dispatcher raises a transport-error condition whose message names
the method, URL and the offending content-type value; when no transport-error
hook is registered the error is thrown (an uncaught wrapped error) and the
body is not parsed, but when a hook is registered the hook is invoked and
the response body IS still parsed as JSON, classification continuing. -/
theorem c3_amended_content_type (st : BodyState) (a : ReqAction) (sv nn : String)
    (d : JSVal) (r : HttpResponse) (f : Nat → JSVal)
    (hok : 200 ≤ r.status ∧ r.status < 300)
    (hct : r.contentType ≠ some jsonCT)
    (hreq : slotCall st.requesting ≠ SlotAction.typeError) :
    (∀ i, slotCall st.error = SlotAction.call i →
      Event.errorHook i ((buildRequest st a sv nn d).1.method ++ " " ++
        (buildRequest st a sv nn d).2 ++ " returned invalid Content-Type: " ++
        (r.contentType.getD "null")) ∈
          (Body.request st a sv nn d (TransportResult.response r) f).1.trace ∧
      Event.parsedBody ∈
        (Body.request st a sv nn d (TransportResult.response r) f).1.trace) ∧
    (slotCall st.error = SlotAction.skip →
      Event.parsedBody ∉
        (Body.request st a sv nn d (TransportResult.response r) f).1.trace ∧
      (slotCall st.requested ≠ SlotAction.typeError →
        (Body.request st a sv nn d (TransportResult.response r) f).1.uncaught =
          some ("Error: " ++ ((buildRequest st a sv nn d).1.method ++ " " ++
            (buildRequest st a sv nn d).2 ++ " failed because of \"" ++
            ("Error: " ++ ((buildRequest st a sv nn d).1.method ++ " " ++
              (buildRequest st a sv nn d).2 ++ " returned invalid Content-Type: " ++
              (r.contentType.getD "null"))) ++ "\"")))) := by
  obtain ⟨evs0, hevs0, hch⟩ :=
    request_eq_chain st a sv nn d (TransportResult.response r) f hreq
  constructor
  · intro i hcall
    have hs1 := stage1_badct_call st ((buildRequest st a sv nn d).1.method)
      ((buildRequest st a sv nn d).2) hok hct hcall
    constructor
    · rw [hch, requestChain_trace,
        show Body.fetchSettle st ((buildRequest st a sv nn d).1.method)
          ((buildRequest st a sv nn d).2) (TransportResult.response r) =
          Body.stage1 st ((buildRequest st a sv nn d).1.method)
          ((buildRequest st a sv nn d).2) r from rfl, hs1, parseStep_fst]
      simp
    · rw [hch, requestChain_trace,
        show Body.fetchSettle st ((buildRequest st a sv nn d).1.method)
          ((buildRequest st a sv nn d).2) (TransportResult.response r) =
          Body.stage1 st ((buildRequest st a sv nn d).1.method)
          ((buildRequest st a sv nn d).2) r from rfl, hs1, parseStep_fst]
      simp
  · intro hskip
    have hs1 := stage1_badct_skip st ((buildRequest st a sv nn d).1.method)
      ((buildRequest st a sv nn d).2) hok hct hskip
    constructor
    · intro hmem
      rw [hch, requestChain_trace,
        show Body.fetchSettle st ((buildRequest st a sv nn d).1.method)
          ((buildRequest st a sv nn d).2) (TransportResult.response r) =
          Body.stage1 st ((buildRequest st a sv nn d).1.method)
          ((buildRequest st a sv nn d).2) r from rfl, hs1] at hmem
      simp only [Body.classifySettle, Body.catchStep, Body.handleError, hskip] at hmem
      rcases hevs0 with h0 | ⟨j, h0⟩ <;> subst h0 <;>
        cases hfin : slotCall st.requested <;>
          simp [Body.finallyStep, hfin] at hmem
    · intro hfin
      rw [hch, requestChain_uncaught,
        show Body.fetchSettle st ((buildRequest st a sv nn d).1.method)
          ((buildRequest st a sv nn d).2) (TransportResult.response r) =
          Body.stage1 st ((buildRequest st a sv nn d).1.method)
          ((buildRequest st a sv nn d).2) r from rfl, hs1]
      simp only [Body.classifySettle, Body.catchStep, Body.handleError, hskip]
      cases hf2 : slotCall st.requested with
      | typeError => exact absurd hf2 hfin
      | skip => simp [Body.finallyStep, hf2]
      | call j => simp [Body.finallyStep, hf2]

/-- Witness for C3 (amended) at a concrete input: 2xx with `text/html` and
hook id 0 registered — the hook receives the content-type message and the
body is parsed anyway. -/
theorem c3_witness :
    Event.errorHook 0 "GET https://localhost/s/n returned invalid Content-Type: text/html" ∈
      (Body.request { stNone with error := some (JSArg.func 0) } ReqAction.read "s" "n"
        JSVal.null (TransportResult.response htmlData42) retUndef).1.trace ∧
    Event.parsedBody ∈
      (Body.request { stNone with error := some (JSArg.func 0) } ReqAction.read "s" "n"
        JSVal.null (TransportResult.response htmlData42) retUndef).1.trace :=
  (c3_amended_content_type { stNone with error := some (JSArg.func 0) } ReqAction.read
    "s" "n" JSVal.null htmlData42 retUndef (by decide) (by decide) (by decide)).1 0 rfl

/-- C4 counterexample: HTTP 401 with no no-session hook but a registered
transport-error hook — nothing fatal happens: no uncaught error escapes (the
thrown 401 error is delivered to the transport-error hook) and the promise
stays pending, refuting the unconditional "the 401 is a fatal error". -/
theorem c4_counterexample :
    (Body.request { stNone with error := some (JSArg.func 5) } ReqAction.create "s" "n"
      JSVal.null (TransportResult.response resp401) retUndef).1.uncaught = none ∧
    (Body.request { stNone with error := some (JSArg.func 5) } ReqAction.create "s" "n"
      JSVal.null (TransportResult.response resp401) retUndef).1.outcome =
      Outcome.pending := ⟨rfl, rfl⟩

/-- C4 (amended): on an HTTP 401, a registered no-session hook is invoked
with no arguments and the call completes silently — no resolution, no
rejection, no uncaught error.  Without a no-session hook the 401 becomes a
thrown transport-error condition: with a transport-error hook registered the
wrapped 401 error is delivered to that hook and nothing is fatal, and with
no transport-error hook either, the wrapped 401 error escapes uncaught. -/
theorem c4_amended_noSession (st : BodyState) (a : ReqAction) (sv nn : String)
    (d : JSVal) (r : HttpResponse) (f : Nat → JSVal)
    (hst : r.status = 401)
    (hreq : slotCall st.requesting ≠ SlotAction.typeError) :
    (∀ i, slotCall st.noSession = SlotAction.call i →
      Event.noSessionHook i ∈
        (Body.request st a sv nn d (TransportResult.response r) f).1.trace ∧
      (Body.request st a sv nn d (TransportResult.response r) f).1.outcome =
        Outcome.pending ∧
      (slotCall st.requested ≠ SlotAction.typeError →
        (Body.request st a sv nn d (TransportResult.response r) f).1.uncaught =
          none)) ∧
    (slotCall st.noSession = SlotAction.skip →
      (∀ i, slotCall st.error = SlotAction.call i →
        Event.errorHook i ((buildRequest st a sv nn d).1.method ++ " " ++
          (buildRequest st a sv nn d).2 ++ " failed because of \"" ++
          ("Error: " ++ (buildRequest st a sv nn d).1.method ++ " " ++
            (buildRequest st a sv nn d).2 ++ " return 401 NOT AUTHORIZED") ++ "\"") ∈
            (Body.request st a sv nn d (TransportResult.response r) f).1.trace ∧
        (slotCall st.requested ≠ SlotAction.typeError →
          (Body.request st a sv nn d (TransportResult.response r) f).1.uncaught =
            none)) ∧
      (slotCall st.error = SlotAction.skip →
        slotCall st.requested ≠ SlotAction.typeError →
        (Body.request st a sv nn d (TransportResult.response r) f).1.uncaught =
          some ("Error: " ++ ((buildRequest st a sv nn d).1.method ++ " " ++
            (buildRequest st a sv nn d).2 ++ " failed because of \"" ++
            ("Error: " ++ (buildRequest st a sv nn d).1.method ++ " " ++
              (buildRequest st a sv nn d).2 ++ " return 401 NOT AUTHORIZED") ++
            "\"")))) := by
  obtain ⟨evs0, hevs0, hch⟩ :=
    request_eq_chain st a sv nn d (TransportResult.response r) f hreq
  constructor
  · intro i hns
    have hs1 := stage1_401_call st ((buildRequest st a sv nn d).1.method)
      ((buildRequest st a sv nn d).2) hst hns
    refine ⟨?_, ?_, ?_⟩
    · rw [hch, requestChain_trace,
        show Body.fetchSettle st ((buildRequest st a sv nn d).1.method)
          ((buildRequest st a sv nn d).2) (TransportResult.response r) =
          Body.stage1 st ((buildRequest st a sv nn d).1.method)
          ((buildRequest st a sv nn d).2) r from rfl, hs1]
      simp
    · rw [hch, requestChain_outcome,
        show Body.fetchSettle st ((buildRequest st a sv nn d).1.method)
          ((buildRequest st a sv nn d).2) (TransportResult.response r) =
          Body.stage1 st ((buildRequest st a sv nn d).1.method)
          ((buildRequest st a sv nn d).2) r from rfl, hs1]
      rfl
    · intro hf2ne
      rw [hch, requestChain_uncaught,
        show Body.fetchSettle st ((buildRequest st a sv nn d).1.method)
          ((buildRequest st a sv nn d).2) (TransportResult.response r) =
          Body.stage1 st ((buildRequest st a sv nn d).1.method)
          ((buildRequest st a sv nn d).2) r from rfl, hs1]
      simp only [Body.classifySettle, Body.stage2, Body.catchStep]
      cases hf2 : slotCall st.requested with
      | typeError => exact absurd hf2 hf2ne
      | skip => simp [Body.finallyStep, hf2]
      | call j => simp [Body.finallyStep, hf2]
  · intro hns
    have hs1 := stage1_401_skip st ((buildRequest st a sv nn d).1.method)
      ((buildRequest st a sv nn d).2) hst hns
    constructor
    · intro i hcall
      constructor
      · rw [hch, requestChain_trace,
          show Body.fetchSettle st ((buildRequest st a sv nn d).1.method)
            ((buildRequest st a sv nn d).2) (TransportResult.response r) =
            Body.stage1 st ((buildRequest st a sv nn d).1.method)
            ((buildRequest st a sv nn d).2) r from rfl, hs1]
        simp only [Body.classifySettle, Body.catchStep]
        rw [handleError_call _ hcall]
        simp
      · intro hf2ne
        rw [hch, requestChain_uncaught,
          show Body.fetchSettle st ((buildRequest st a sv nn d).1.method)
            ((buildRequest st a sv nn d).2) (TransportResult.response r) =
            Body.stage1 st ((buildRequest st a sv nn d).1.method)
            ((buildRequest st a sv nn d).2) r from rfl, hs1]
        simp only [Body.classifySettle, Body.catchStep]
        rw [handleError_call _ hcall]
        cases hf2 : slotCall st.requested with
        | typeError => exact absurd hf2 hf2ne
        | skip => simp [Body.finallyStep, hf2]
        | call j => simp [Body.finallyStep, hf2]
    · intro hskip hf2ne
      rw [hch, requestChain_uncaught,
        show Body.fetchSettle st ((buildRequest st a sv nn d).1.method)
          ((buildRequest st a sv nn d).2) (TransportResult.response r) =
          Body.stage1 st ((buildRequest st a sv nn d).1.method)
          ((buildRequest st a sv nn d).2) r from rfl, hs1]
      simp only [Body.classifySettle, Body.catchStep, Body.handleError, hskip]
      cases hf2 : slotCall st.requested with
      | typeError => exact absurd hf2 hf2ne
      | skip => simp [Body.finallyStep, hf2]
      | call j => simp [Body.finallyStep, hf2]

/-- Witness for C4 (amended) at a concrete input: 401 with no-session hook
id 9 registered — the hook fires, the promise stays pending, nothing is
uncaught. -/
theorem c4_witness :
    Event.noSessionHook 9 ∈
      (Body.request { stNone with noSession := some (JSArg.func 9) } ReqAction.create
        "s" "n" JSVal.null (TransportResult.response resp401) retUndef).1.trace ∧
    (Body.request { stNone with noSession := some (JSArg.func 9) } ReqAction.create
      "s" "n" JSVal.null (TransportResult.response resp401) retUndef).1.outcome =
      Outcome.pending ∧
    (Body.request { stNone with noSession := some (JSArg.func 9) } ReqAction.create
      "s" "n" JSVal.null (TransportResult.response resp401) retUndef).1.uncaught =
      none := by
  have h := (c4_amended_noSession { stNone with noSession := some (JSArg.func 9) }
    ReqAction.create "s" "n" JSVal.null resp401 retUndef rfl (by decide)).1 9 rfl
  exact ⟨h.1, h.2.1, h.2.2 (by decide)⟩
